import Mathlib

/-!
Shallow embedding of the authenticated-session manager of the wego Wekan
client (client.go, client_cards.go login part, request.go, client_boards.go,
client_swimlanes.go) and proofs about it.

Modelling conventions:
* Go time.Time and time.Duration are modelled as Int (nanoseconds); the Go
  zero value of time.Time is modelled as 0.
* Go errors are an inductive type. fmt.Errorf with the percent-v verb
  produces a flat error carrying only text (constructor msg), while only
  the percent-w verb would produce a wrapping error (constructor wrap);
  errors.Is unwraps only wrap. This matches the Go standard library.
* External effects (the HTTP transport, JSON decoding, time.Parse) enter
  the model as explicit inputs: a login attempt oracle indexed by attempt
  number, a decoded-response datum, or a parse function argument.
* The background goroutine connectionRoutine is modelled as a step function
  on an explicit state, driven by the three select events of its loop.
  Context cancellation is modelled by the attempt index from which ctx.Err
  is non-nil.
-/

namespace Wego

/-- Go time.Time instants, as nanoseconds; the zero time.Time is 0. -/
abbrev GoTime := Int

/-- Go time.Duration, in nanoseconds. -/
abbrev GoDuration := Int

/-- One second, as in Go time.Second. -/
def second : GoDuration := 1000000000

/-- Go error values. msg models an error produced by errors.New or by
fmt.Errorf with the percent-v verb (no chain kept); wrap models fmt.Errorf
with the percent-w verb (chain kept). eof is io.EOF, errClosed is
closer.ErrClosed, canceled is context.Canceled, notFound is the package
variable ErrNotFound. -/
inductive GoError where
  | eof
  | errClosed
  | canceled
  | notFound
  | msg (s : String)
  | wrap (s : String) (inner : GoError)
deriving Repr, DecidableEq

/-- Rendering of a Go error by the percent-v verb. -/
def GoError.text : GoError → String
  | .eof => "EOF"
  | .errClosed => "closer: closed"
  | .canceled => "context canceled"
  | .notFound => "not found"
  | .msg s => s
  | .wrap s _ => s

/-- errors.Is from the Go standard library: equality along the Unwrap
chain; only wrap has an Unwrap method. -/
def GoError.is : GoError → GoError → Bool
  | .wrap s inner, target => (GoError.wrap s inner == target) || inner.is target
  | e, target => e == target

/-- Raw login response as decoded from JSON (Go type loginResponse). -/
structure loginResponse where
  id : String
  token : String
  tokenExpires : String
deriving Repr, DecidableEq

/-- Public login response (Go type LoginResponse); TokenExpires is a
time.Time, zero valued when never assigned. -/
structure LoginResponse where
  ID : String
  Token : String
  TokenExpires : GoTime
deriving Repr, DecidableEq

/-- Go type badRequestResponse. -/
structure badRequestResponse where
  error : Int
  reason : String
deriving Repr, DecidableEq

/-- LoginResponse.load from client_cards.go: copies ID and Token, then
parses tokenExpires with time.Parse (modelled by the parse argument);
on parse failure the receiver keeps the zero TokenExpires and an error is
returned. Returns the receiver after the call together with the returned
error. -/
def LoginResponse.load (parse : String → Option GoTime) (l : loginResponse) :
    LoginResponse × Option GoError :=
  match parse l.tokenExpires with
  | some t => (⟨l.id, l.token, t⟩, none)
  | none => (⟨l.id, l.token, 0⟩,
      some (.msg ("failed to parse token expires time stamp: " ++ l.tokenExpires)))

/-- Outcome of the HTTP POST of a login or register request, after the
transport and JSON decoding ran: either the transport failed, or a status
400 response whose body did or did not decode as badRequestResponse, or
another non-200 status, or a 200 response whose body did or did not decode
as loginResponse. -/
inductive LoginHTTP where
  | transportError (e : GoError)
  | badRequestBody (decoded : Option badRequestResponse)
  | otherStatus (code : Nat)
  | okBody (decoded : Option loginResponse)
deriving Repr, DecidableEq

/-- loginOrRegister from client_cards.go. Branches follow the source: a
transport error, a 400 response (parsed or not), another unexpected status
and an unparsable 200 body each return an error built with fmt.Errorf and
the percent-v verb; a parsed 200 body is loaded into the public type with
r.load, WHOSE RETURNED ERROR THE SOURCE DISCARDS, and returned as success. -/
def loginOrRegister (parse : String → Option GoTime) (h : LoginHTTP) :
    Except GoError LoginResponse :=
  match h with
  | .transportError e => .error (.msg ("failed to send POST request: " ++ e.text))
  | .badRequestBody none => .error (.msg "failed to parse response of bad request")
  | .badRequestBody (some d) => .error (.msg ("bad request: " ++ d.reason))
  | .otherStatus _ => .error (.msg "unexpected status code received")
  | .okBody none => .error (.msg "failed to parse response")
  | .okBody (some respData) => .ok (LoginResponse.load parse respData).1

/-- Client options (Go type Options); only the fields the session manager
reads are kept. -/
structure Options where
  remoteAddr : String
  username : String
  password : String
  timeBetweenLoginAttemps : GoDuration
deriving Repr, DecidableEq

/-- The default assignment of NewClient: an interval below one second is
replaced by one second. -/
def Options.applyDefaults (opts : Options) : Options :=
  if opts.timeBetweenLoginAttemps < second then
    { opts with timeBetweenLoginAttemps := second }
  else opts

/-- Cancellation of the context used by loginUntilSuccess: ctx.Err is
non-nil at the check after attempt i exactly when the cancellation point
(if any) is at most i. -/
def ctxErrAt (cancelAt : Option Nat) (i : Nat) : Bool :=
  match cancelAt with
  | none => false
  | some k => decide (k ≤ i)

/-- loginUntilSuccess from client.go, driven by an oracle giving the result
of attempt i of c.Login. Fuel bounds the number of attempts modelled; none
means the loop is still running after fuel attempts. On a failed attempt
the loop returns ctx.Err when the context is done, otherwise it sleeps the
fixed interval and retries. On success it returns the response (the caller
reads Token, TokenExpires and, via the mutex, ID). The result carries the
response or error, the index of the next unconsumed attempt, and the list
of sleep durations performed. -/
def loginUntilSuccess (interval : GoDuration)
    (attempts : Nat → Except GoError LoginResponse) (cancelAt : Option Nat) :
    Nat → Nat → Option (Except GoError LoginResponse × Nat × List GoDuration)
  | 0, _ => none
  | fuel + 1, i =>
    match attempts i with
    | .ok resp => some (.ok resp, i + 1, [])
    | .error _ =>
      if ctxErrAt cancelAt i then some (.error .canceled, i + 1, [])
      else
        match loginUntilSuccess interval attempts cancelAt fuel (i + 1) with
        | none => none
        | some (res, j, sleeps) => some (res, j, interval :: sleeps)

/-- State of the connection routine: the token and expiry adopted by the
routine, the user id cached under the separate mutex c.mx, the absolute
instant at which the renewal timer fires, whether the routine has exited,
and the index of the next login attempt the shared transport will serve. -/
structure ConnState where
  token : String
  tokenExpires : GoTime
  userID : String
  timerTarget : GoTime
  closed : Bool
  attIdx : Nat
deriving Repr, DecidableEq

/-- GetCurrentUserID from client_users.go: reads the cached user id under
the mutex c.mx, independently of the connection routine. -/
def GetCurrentUserID (s : ConnState) : String := s.userID

/-- The store of the user id that loginUntilSuccess performs under c.mx
just before returning a successful response. -/
def saveUserID (s : ConnState) (resp : LoginResponse) : ConnState :=
  { s with userID := resp.ID }

/-- Adoption of a new session by connectionRoutine after loginUntilSuccess
returned: the token and expiry variables are overwritten and the timer is
reset to fire five seconds before the new expiry. -/
def adoptSession (s : ConnState) (resp : LoginResponse) (newIdx : Nat) : ConnState :=
  { s with token := resp.Token, tokenExpires := resp.TokenExpires,
           timerTarget := resp.TokenExpires - 5 * second, attIdx := newIdx }

/-- State right after NewClient succeeded and startConnectionRoutine ran:
the first session is installed and the timer is set to fire five seconds
before its expiry (time.NewTimer of time.Until tokenExpires minus five
seconds, started now). -/
def initConnState (resp : LoginResponse) (nextIdx : Nat) : ConnState :=
  { token := resp.Token, tokenExpires := resp.TokenExpires, userID := resp.ID,
    timerTarget := resp.TokenExpires - 5 * second, closed := false, attIdx := nextIdx }

/-- The three events the select of connectionRoutine can wake on. -/
inductive Event where
  | closing
  | timerFires
  | tokenRequest
deriving Repr, DecidableEq

/-- One iteration of the connectionRoutine loop. A closed routine processes
nothing (no reply is ever written). On the closing event the routine
returns. On the timer event it runs loginUntilSuccess: an error (only
possible by cancellation) makes the routine return; a success is adopted,
with the user id stored first (inside loginUntilSuccess) and the session
variables and timer overwritten after. On a token request it writes the
current token into the reply slot of the requester. The outer Option is
fuel exhaustion of loginUntilSuccess; the inner Option String is the reply
written, if any. -/
def connStep (interval : GoDuration)
    (attempts : Nat → Except GoError LoginResponse) (cancelAt : Option Nat)
    (fuel : Nat) (s : ConnState) : Event → Option (ConnState × Option String)
  | .closing =>
    if s.closed then some (s, none) else some ({ s with closed := true }, none)
  | .timerFires =>
    if s.closed then some (s, none)
    else
      match loginUntilSuccess interval attempts cancelAt fuel s.attIdx with
      | none => none
      | some (.error _, j, _) => some ({ s with closed := true, attIdx := j }, none)
      | some (.ok resp, j, _) => some (adoptSession (saveUserID s resp) resp j, none)
  | .tokenRequest =>
    if s.closed then some (s, none) else some (s, some s.token)

/-- Run of the connectionRoutine loop over a list of events, collecting the
replies written to token requesters in order. -/
def connRun (interval : GoDuration)
    (attempts : Nat → Except GoError LoginResponse) (cancelAt : Option Nat)
    (fuel : Nat) (s : ConnState) : List Event → Option (ConnState × List String)
  | [] => some (s, [])
  | ev :: evs =>
    match connStep interval attempts cancelAt fuel s ev with
    | none => none
    | some (s1, rep) =>
      match connRun interval attempts cancelAt fuel s1 evs with
      | none => none
      | some (s2, reps) => some (s2, rep.toList ++ reps)

/-- Result of NewClient from client.go: defaults are applied to the
options, then loginUntilSuccess runs with attempt index 0; an error aborts
construction with that error and no client, a success yields the client
holding the effective options and the routine state installed by
startConnectionRoutine. The outer Option is fuel exhaustion: none means
construction still blocks after fuel attempts. -/
structure ClientState where
  opts : Options
  conn : ConnState
deriving Repr, DecidableEq

def NewClient (opts : Options)
    (attempts : Nat → Except GoError LoginResponse) (cancelAt : Option Nat)
    (fuel : Nat) : Option (Except GoError ClientState) :=
  let eff := opts.applyDefaults
  match loginUntilSuccess eff.timeBetweenLoginAttemps attempts cancelAt fuel 0 with
  | none => none
  | some (.error e, _, _) => some (.error e)
  | some (.ok resp, j, _) => some (.ok { opts := eff, conn := initConnState resp j })

/-- A branch one of the two selects of the token method can take. -/
inductive Branch where
  | closing
  | ctxDone
  | handoff
deriving Repr, DecidableEq

/-- The token method of client.go, given which branch each of its two
selects takes. The first select races the handoff of the reply slot against
the closing channel and the context; the second races the reply against the
same two. A closing branch yields closer.ErrClosed, a context branch yields
ctx.Err (the callers own cancellation error), and only the full handoff
plus reply path yields the token the routine wrote. -/
def token (b1 b2 : Branch) (ctxErr : GoError) (reply : String) :
    Except GoError String :=
  match b1 with
  | .closing => .error .errClosed
  | .ctxDone => .error ctxErr
  | .handoff =>
    match b2 with
    | .closing => .error .errClosed
    | .ctxDone => .error ctxErr
    | .handoff => .ok reply

/-- Send into the single-use reply slot of a token request, a channel of
capacity one: a send into the empty slot succeeds immediately (some), a
send into a full slot would block (none). -/
def slotSend (slot : Option String) (v : String) : Option (Option String) :=
  match slot with
  | none => some (some v)
  | some _ => none

/-- The reply slot a requester creates is empty. -/
def newReplySlot : Option String := none

/-- An http.Request as far as the builders of request.go shape it: method,
url, headers and optional body. -/
structure Request where
  method : String
  url : String
  headers : List (String × String)
  body : Option String
deriving Repr, DecidableEq

/-- http.Header.Set: replaces any existing value of the key. -/
def setHeader (req : Request) (k v : String) : Request :=
  { req with headers := req.headers.filter (fun p => p.1 ≠ k) ++ [(k, v)] }

/-- Whether the request carries a header of the given key. -/
def hasHeader (req : Request) (k : String) : Bool :=
  req.headers.any (fun p => p.1 == k)

/-- authenticateRequest from client.go, given the result of c.token: on a
token error the request is left untouched and the error is returned; on
success the Authorization header is set to the bearer token and nil is
returned. -/
def authenticateRequest (tokenResult : Except GoError String) (req : Request) :
    Request × Option GoError :=
  match tokenResult with
  | .error e => (req, some e)
  | .ok tok => (setHeader req "Authorization" ("Bearer " ++ tok), none)

/-- newGETRequest from request.go (request creation itself succeeds for the
well-formed method and url the client builds). -/
def newGETRequest (remoteAddr endpoint : String) : Request :=
  setHeader { method := "GET", url := remoteAddr ++ endpoint,
              headers := [], body := none } "Accept" "application/json"

/-- newAuthenticatedGETRequest from request.go: builds the GET request,
then calls authenticateRequest DISCARDING ITS RETURNED ERROR, and returns
the request with a nil error. -/
def newAuthenticatedGETRequest (remoteAddr endpoint : String)
    (tokenResult : Except GoError String) : Except GoError Request :=
  .ok (authenticateRequest tokenResult (newGETRequest remoteAddr endpoint)).1

/-- newAuthenticatedPOSTRequest from request.go; marshaled is the result of
json.Marshal of the body (none on marshal failure). The error of
authenticateRequest is discarded. -/
def newAuthenticatedPOSTRequest (remoteAddr endpoint : String)
    (marshaled : Option String) (tokenResult : Except GoError String) :
    Except GoError Request :=
  match marshaled with
  | none => .error (.msg "failed to marshal json")
  | some data =>
    let req := setHeader (setHeader
      { method := "POST", url := remoteAddr ++ endpoint, headers := [],
        body := some data } "Content-Type" "application/json") "Accept" "application/json"
    .ok (authenticateRequest tokenResult req).1

/-- newAuthenticatedPUTRequest from request.go; same shape as POST. The
error of authenticateRequest is discarded. -/
def newAuthenticatedPUTRequest (remoteAddr endpoint : String)
    (marshaled : Option String) (tokenResult : Except GoError String) :
    Except GoError Request :=
  match marshaled with
  | none => .error (.msg "failed to marshal json")
  | some data =>
    let req := setHeader (setHeader
      { method := "PUT", url := remoteAddr ++ endpoint, headers := [],
        body := some data } "Content-Type" "application/json") "Accept" "application/json"
    .ok (authenticateRequest tokenResult req).1

/-- newAuthenticatedDELETERequest from request.go: builds the DELETE
request without extra headers, then calls authenticateRequest DISCARDING
ITS RETURNED ERROR. -/
def newAuthenticatedDELETERequest (remoteAddr endpoint : String)
    (tokenResult : Except GoError String) : Except GoError Request :=
  .ok (authenticateRequest tokenResult
        { method := "DELETE", url := remoteAddr ++ endpoint,
          headers := [], body := none }).1

/-- Reading the body of an HTTP response: io.ReadAll fails or yields data. -/
inductive BodyRead where
  | readError (e : GoError)
  | data (s : String)
deriving Repr, DecidableEq

/-- Outcome of c.httpc.Do for a simple request: transport failure, or a
response with a status code and a body. -/
inductive HTTPOutcome where
  | doError (e : GoError)
  | resp (status : Nat) (body : BodyRead)
deriving Repr, DecidableEq

/-- parseResponse from request.go, with json.Unmarshal modelled by the
unmarshal argument (some e means decoding failed with error e). Both
failure paths use fmt.Errorf with the percent-v verb, so the inner error
is flattened to text and no chain is kept. -/
def parseResponse (unmarshal : String → Option GoError) (body : BodyRead) :
    Option GoError :=
  match body with
  | .readError e => some (.msg ("failed to read response: " ++ e.text))
  | .data s =>
    match unmarshal s with
    | some e => some (.msg ("failed to unmarshal response: " ++ e.text ++
        "; raw response: " ++ s))
    | none => none

/-- doSimpleRequest from request.go: a transport error, a non-200 status
and a parse failure each return an error built by fmt.Errorf with the
percent-v verb (no chain). wantResp tells whether a response value is
expected (resp non-nil in the source). -/
def doSimpleRequest (unmarshal : String → Option GoError) (wantResp : Bool)
    (o : HTTPOutcome) : Option GoError :=
  match o with
  | .doError e => some (.msg ("failed to send POST request: " ++ e.text))
  | .resp status body =>
    if status ≠ 200 then some (.msg "unexpected status code received")
    else if !wantResp then none
    else
      match parseResponse unmarshal body with
      | some e => some (.msg ("failed to parse response: " ++ e.text))
      | none => none

/-- Error translation of GetBoard from client_boards.go: on a request error
err, if errors.Is err io.EOF then ErrNotFound is returned, otherwise err
is returned unchanged. -/
def GetBoard (unmarshal : String → Option GoError) (o : HTTPOutcome) :
    Option GoError :=
  match doSimpleRequest unmarshal true o with
  | some e => some (if e.is .eof then .notFound else e)
  | none => none

/-- Error translation of GetSwimlane from client_swimlanes.go; identical
shape to GetBoard. -/
def GetSwimlane (unmarshal : String → Option GoError) (o : HTTPOutcome) :
    Option GoError :=
  match doSimpleRequest unmarshal true o with
  | some e => some (if e.is .eof then .notFound else e)
  | none => none

/-- Holds when a builder returned its request with a nil error and the
request carries no Authorization header. -/
def okNoAuth : Except GoError Request → Bool
  | .ok req => !hasHeader req "Authorization"
  | .error _ => false

/-! Helper lemmas about the retry loop and the routine. -/

/-- An error returned by loginUntilSuccess is always the cancellation
error: failed attempts are retried, never surfaced. -/
theorem loginUntilSuccess_error_canceled {interval : GoDuration}
    {attempts : Nat → Except GoError LoginResponse} {cancelAt : Option Nat} :
    ∀ {fuel i : Nat} {e : GoError} {j : Nat} {sl : List GoDuration},
      loginUntilSuccess interval attempts cancelAt fuel i
        = some (.error e, j, sl) → e = GoError.canceled := by
  intro fuel
  induction fuel with
  | zero => intro i e j sl h; simp [loginUntilSuccess] at h
  | succ n ih =>
    intro i e j sl h
    simp only [loginUntilSuccess] at h
    cases hA : attempts i with
    | ok resp => rw [hA] at h; simp at h
    | error er =>
      rw [hA] at h
      by_cases hc : ctxErrAt cancelAt i
      · rw [if_pos hc] at h
        simp only [Option.some.injEq, Prod.mk.injEq] at h
        cases h.1
        rfl
      · rw [if_neg hc] at h
        cases hR : loginUntilSuccess interval attempts cancelAt n (i + 1) with
        | none => rw [hR] at h; simp at h
        | some trip =>
          obtain ⟨res, j1, sl1⟩ := trip
          rw [hR] at h
          simp only [Option.some.injEq, Prod.mk.injEq] at h
          cases res with
          | ok r => exact absurd h.1 (by simp)
          | error e1 =>
            cases h.1
            exact ih hR

/-- A success returned by loginUntilSuccess comes from a successful attempt
of the transport, and the next unconsumed index is right after it. -/
theorem loginUntilSuccess_ok_attempt {interval : GoDuration}
    {attempts : Nat → Except GoError LoginResponse} {cancelAt : Option Nat} :
    ∀ {fuel i : Nat} {resp : LoginResponse} {j : Nat} {sl : List GoDuration},
      loginUntilSuccess interval attempts cancelAt fuel i
        = some (.ok resp, j, sl) →
      ∃ k, i ≤ k ∧ j = k + 1 ∧ attempts k = .ok resp := by
  intro fuel
  induction fuel with
  | zero => intro i resp j sl h; simp [loginUntilSuccess] at h
  | succ n ih =>
    intro i resp j sl h
    simp only [loginUntilSuccess] at h
    cases hA : attempts i with
    | ok r =>
      rw [hA] at h
      simp only [Option.some.injEq, Prod.mk.injEq] at h
      cases h.1
      exact ⟨i, le_refl i, h.2.1.symm, hA⟩
    | error er =>
      rw [hA] at h
      by_cases hc : ctxErrAt cancelAt i
      · rw [if_pos hc] at h
        simp only [Option.some.injEq, Prod.mk.injEq] at h
        exact absurd h.1 (by simp)
      · rw [if_neg hc] at h
        cases hR : loginUntilSuccess interval attempts cancelAt n (i + 1) with
        | none => rw [hR] at h; simp at h
        | some trip =>
          obtain ⟨res, j1, sl1⟩ := trip
          rw [hR] at h
          simp only [Option.some.injEq, Prod.mk.injEq] at h
          cases res with
          | ok r =>
            cases h.1
            obtain ⟨k, hk1, hk2, hk3⟩ := ih hR
            exact ⟨k, le_trans (Nat.le_succ i) hk1, h.2.1 ▸ hk2, hk3⟩
          | error e1 => exact absurd h.1 (by simp)

/-- Every sleep performed by loginUntilSuccess is the fixed interval: no
backoff growth. -/
theorem loginUntilSuccess_sleeps_fixed {interval : GoDuration}
    {attempts : Nat → Except GoError LoginResponse} {cancelAt : Option Nat} :
    ∀ {fuel i : Nat} {res : Except GoError LoginResponse} {j : Nat}
      {sl : List GoDuration},
      loginUntilSuccess interval attempts cancelAt fuel i = some (res, j, sl) →
      ∀ d ∈ sl, d = interval := by
  intro fuel
  induction fuel with
  | zero => intro i res j sl h; simp [loginUntilSuccess] at h
  | succ n ih =>
    intro i res j sl h
    simp only [loginUntilSuccess] at h
    cases hA : attempts i with
    | ok r =>
      rw [hA] at h
      simp only [Option.some.injEq, Prod.mk.injEq] at h
      rw [← h.2.2]
      intro d hd
      simp at hd
    | error er =>
      rw [hA] at h
      by_cases hc : ctxErrAt cancelAt i
      · rw [if_pos hc] at h
        simp only [Option.some.injEq, Prod.mk.injEq] at h
        rw [← h.2.2]
        intro d hd
        simp at hd
      · rw [if_neg hc] at h
        cases hR : loginUntilSuccess interval attempts cancelAt n (i + 1) with
        | none => rw [hR] at h; simp at h
        | some trip =>
          obtain ⟨res1, j1, sl1⟩ := trip
          rw [hR] at h
          simp only [Option.some.injEq, Prod.mk.injEq] at h
          rw [← h.2.2]
          intro d hd
          rcases List.mem_cons.mp hd with h1 | h1
          · exact h1
          · exact ih hR d h1

/-- With a transport that always fails and no cancellation, loginUntilSuccess
never returns within any fuel: the loop retries without an attempt limit. -/
theorem loginUntilSuccess_allFail_none {interval : GoDuration}
    {attempts : Nat → Except GoError LoginResponse}
    (hfail : ∀ n, ∃ er, attempts n = .error er) :
    ∀ (fuel i : Nat),
      loginUntilSuccess interval attempts none fuel i = none := by
  intro fuel
  induction fuel with
  | zero => intro i; simp [loginUntilSuccess]
  | succ n ih =>
    intro i
    obtain ⟨er, her⟩ := hfail i
    simp [loginUntilSuccess, her, ctxErrAt, ih (i + 1)]

/-- With a transport that always fails and a cancellation point k, the loop
with fuel covering k attempts returns the cancellation error, having slept
the fixed interval between consecutive attempts. -/
theorem loginUntilSuccess_allFail_cancel {interval : GoDuration}
    {attempts : Nat → Except GoError LoginResponse} (k : Nat)
    (hfail : ∀ n, ∃ er, attempts n = .error er) :
    ∀ (fuel i : Nat), i + fuel = k + 1 → i ≤ k →
      loginUntilSuccess interval attempts (some k) fuel i
        = some (.error .canceled, k + 1, List.replicate (fuel - 1) interval) := by
  intro fuel
  induction fuel with
  | zero => intro i h1 h2; omega
  | succ n ih =>
    intro i h1 h2
    obtain ⟨er, her⟩ := hfail i
    rcases Nat.eq_zero_or_pos n with hn | hn
    · subst hn
      have hik : i = k := by omega
      subst hik
      simp [loginUntilSuccess, her, ctxErrAt]
    · have hik : ¬ (k ≤ i) := by omega
      have hrec := ih (i + 1) (by omega) (by omega)
      simp only [loginUntilSuccess, her, ctxErrAt, decide_eq_true_eq, if_neg hik, hrec]
      have hn1 : n + 1 - 1 = (n - 1) + 1 := by omega
      rw [hn1, List.replicate_succ]

/-- Serving a run of token requests from a live routine state leaves the
state untouched (in particular no login attempt is consumed) and replies
with the current token each time. -/
theorem connRun_requests {interval : GoDuration}
    {attempts : Nat → Except GoError LoginResponse} {cancelAt : Option Nat}
    {fuel : Nat} {s : ConnState} (hs : s.closed = false) :
    ∀ n : Nat,
      connRun interval attempts cancelAt fuel s (List.replicate n .tokenRequest)
        = some (s, List.replicate n s.token) := by
  intro n
  induction n with
  | zero => simp [connRun]
  | succ m ih =>
    rw [List.replicate_succ, List.replicate_succ]
    simp only [connRun, connStep, hs, Bool.false_eq_true, if_false, ih,
      Option.toList_some, List.singleton_append]

/-- Every error of doSimpleRequest is built by fmt.Errorf with the
percent-v verb: a flat msg error, with no chain for errors.Is to walk. -/
theorem doSimpleRequest_error_shape {unmarshal : String → Option GoError}
    {w : Bool} {o : HTTPOutcome} {e : GoError}
    (h : doSimpleRequest unmarshal w o = some e) : ∃ s, e = .msg s := by
  cases o with
  | doError e1 =>
    simp only [doSimpleRequest, Option.some.injEq] at h
    exact ⟨_, h.symm⟩
  | resp status body =>
    simp only [doSimpleRequest] at h
    by_cases h200 : status ≠ 200
    · rw [if_pos h200] at h
      simp only [Option.some.injEq] at h
      exact ⟨_, h.symm⟩
    · rw [if_neg h200] at h
      cases hw : w with
      | false => rw [hw] at h; simp at h
      | true =>
        rw [hw] at h
        simp only [Bool.not_true, Bool.false_eq_true, if_false] at h
        cases body with
        | readError e2 =>
          simp only [parseResponse, Option.some.injEq] at h
          exact ⟨_, h.symm⟩
        | data s =>
          simp only [parseResponse] at h
          cases hu : unmarshal s with
          | none => rw [hu] at h; simp at h
          | some e3 =>
            rw [hu] at h
            simp only [Option.some.injEq] at h
            exact ⟨_, h.symm⟩

/-- errors.Is of a flat msg error against io.EOF never holds. -/
theorem msg_is_eof_false (s : String) : GoError.is (.msg s) .eof = false := rfl

/-- GetBoard and GetSwimlane return every doSimpleRequest error unchanged:
the EOF test never fires because the error is a flat msg error. -/
theorem GetBoard_GetSwimlane_preserve_error {unmarshal : String → Option GoError}
    {o : HTTPOutcome} {e : GoError}
    (h : doSimpleRequest unmarshal true o = some e) :
    GetBoard unmarshal o = some e ∧ GetSwimlane unmarshal o = some e := by
  obtain ⟨s, rfl⟩ := doSimpleRequest_error_shape h
  constructor <;> simp [GetBoard, GetSwimlane, h, msg_is_eof_false]

/-! Claim theorems. -/

/-- C1: the spec treats every decoding error of the login response as a
transient login failure to be retried. The code agrees for a malformed
JSON body (an error is returned, which loginUntilSuccess retries), but for
a well-formed 200 body whose tokenExpires timestamp fails to parse,
loginOrRegister discards the error of LoginResponse.load and returns the
response as a SUCCESS with the zero expiry, adopting it as a session. -/
theorem C1_load_error_discarded :
    loginOrRegister (fun _ => none) (.okBody none)
      = .error (.msg "failed to parse response")
    ∧ (LoginResponse.load (fun _ => none) ⟨"u1", "t1", "garbage"⟩).2
      = some (.msg "failed to parse token expires time stamp: garbage")
    ∧ loginOrRegister (fun _ => none) (.okBody (some ⟨"u1", "t1", "garbage"⟩))
      = .ok ⟨"u1", "t1", 0⟩ :=
  ⟨rfl, rfl, rfl⟩

/-- C2: a token request accepted by the routine is answered immediately
with the current token and performs no login: a run of token requests
leaves the routine state (including the attempt index of the transport)
unchanged and every reply equals the token of the most recently completed
login, both right after construction and after an adoption. -/
theorem C2_requests_read_current_session :
    ∀ (interval : GoDuration) (attempts : Nat → Except GoError LoginResponse)
      (cancelAt : Option Nat) (fuel n j : Nat) (s : ConnState)
      (resp : LoginResponse),
      (s.closed = false →
        connRun interval attempts cancelAt fuel s (List.replicate n .tokenRequest)
          = some (s, List.replicate n s.token))
      ∧ connRun interval attempts cancelAt fuel (initConnState resp j)
          (List.replicate n .tokenRequest)
          = some (initConnState resp j, List.replicate n resp.Token)
      ∧ (initConnState resp j).token = resp.Token
      ∧ (adoptSession (saveUserID s resp) resp j).token = resp.Token := by
  intro interval attempts cancelAt fuel n j s resp
  exact ⟨fun hs => connRun_requests hs n, connRun_requests rfl n, rfl, rfl⟩

/-- C2 witness: two requests against the state of a completed first login
both reply with its token. -/
theorem C2_requests_read_current_session_witness :
    connRun second (fun _ => .error (.msg "down")) none 0
      (initConnState ⟨"u1", "t1", 100⟩ 1) (List.replicate 2 .tokenRequest)
      = some (initConnState ⟨"u1", "t1", 100⟩ 1, List.replicate 2 "t1") :=
  (C2_requests_read_current_session second (fun _ => .error (.msg "down"))
    none 0 2 1 (initConnState ⟨"u1", "t1", 100⟩ 1) ⟨"u1", "t1", 100⟩).1 rfl

/-- C3: once shutdown fires, the closing branch of each select is ready,
so an in-flight fetch taking it unblocks with the closed error; after
shutdown the handoff has no receiver, so with a live caller context the
first select must take the closing branch and a new fetch fails closed
without waiting; and over all branch resolutions the token method returns
only the current token, the closed error or the callers own context
error. -/
theorem C3_shutdown_unblocks_and_trichotomy :
    ∀ (b1 b2 : Branch) (ctxErr : GoError) (reply : String),
      token .closing b2 ctxErr reply = .error .errClosed
      ∧ token .handoff .closing ctxErr reply = .error .errClosed
      ∧ (b1 ≠ .ctxDone → b1 ≠ .handoff →
          token b1 b2 ctxErr reply = .error .errClosed)
      ∧ (token b1 b2 ctxErr reply = .ok reply
         ∨ token b1 b2 ctxErr reply = .error .errClosed
         ∨ token b1 b2 ctxErr reply = .error ctxErr) := by
  intro b1 b2 ctxErr reply
  refine ⟨rfl, rfl, ?_, ?_⟩
  · intro h1 h2
    cases b1 with
    | closing => rfl
    | ctxDone => exact absurd rfl h1
    | handoff => exact absurd rfl h2
  · cases b1 <;> cases b2 <;> simp [token]

/-- C3 witness: a fetch whose first select takes the closing branch fails
with the closed error. -/
theorem C3_shutdown_unblocks_and_trichotomy_witness :
    token .closing .closing (.msg "ctx") "t1" = .error .errClosed :=
  (C3_shutdown_unblocks_and_trichotomy .closing .closing (.msg "ctx") "t1").2.2.1
    (by decide) (by decide)

/-- C4: the renewal timer is set to the session expiry minus five seconds
at startup and again after every successful renewal; the retry loop sleeps
the fixed interval between attempts and can only end in success or the
cancellation error; when it ends by cancellation the routine exits and a
later token request gets no reply. -/
theorem C4_renewal_timer_and_retry :
    ∀ (interval : GoDuration) (attempts : Nat → Except GoError LoginResponse)
      (cancelAt : Option Nat) (fuel j : Nat) (s : ConnState)
      (resp : LoginResponse) (sl : List GoDuration)
      (res : Except GoError LoginResponse) (e : GoError),
      (initConnState resp j).timerTarget = resp.TokenExpires - 5 * second
      ∧ (loginUntilSuccess interval attempts cancelAt fuel s.attIdx
            = some (res, j, sl) → ∀ d ∈ sl, d = interval)
      ∧ (loginUntilSuccess interval attempts cancelAt fuel s.attIdx
            = some (.error e, j, sl) → e = .canceled)
      ∧ (s.closed = false →
          loginUntilSuccess interval attempts cancelAt fuel s.attIdx
            = some (.ok resp, j, sl) →
          connStep interval attempts cancelAt fuel s .timerFires
            = some (adoptSession (saveUserID s resp) resp j, none)
          ∧ (adoptSession (saveUserID s resp) resp j).timerTarget
            = resp.TokenExpires - 5 * second)
      ∧ (s.closed = false →
          loginUntilSuccess interval attempts cancelAt fuel s.attIdx
            = some (.error e, j, sl) →
          connStep interval attempts cancelAt fuel s .timerFires
            = some ({ s with closed := true, attIdx := j }, none)
          ∧ connStep interval attempts cancelAt fuel
              { s with closed := true, attIdx := j } .tokenRequest
            = some ({ s with closed := true, attIdx := j }, none)) := by
  intro interval attempts cancelAt fuel j s resp sl res e
  refine ⟨rfl, fun h => loginUntilSuccess_sleeps_fixed h,
    fun h => loginUntilSuccess_error_canceled h, ?_, ?_⟩
  · intro hs h
    exact ⟨by simp [connStep, hs, h], rfl⟩
  · intro hs h
    exact ⟨by simp [connStep, hs, h], by simp [connStep]⟩

/-- C4 witness: a renewal that succeeds at once resets the timer to the
new expiry minus five seconds. -/
theorem C4_renewal_timer_and_retry_witness :
    connStep second (fun _ => .ok ⟨"u2", "t2", 20 * second⟩) none 1
      (initConnState ⟨"u1", "t1", 10 * second⟩ 0) .timerFires
      = some (adoptSession (saveUserID (initConnState ⟨"u1", "t1", 10 * second⟩ 0)
          ⟨"u2", "t2", 20 * second⟩) ⟨"u2", "t2", 20 * second⟩ 1, none)
    ∧ (adoptSession (saveUserID (initConnState ⟨"u1", "t1", 10 * second⟩ 0)
          ⟨"u2", "t2", 20 * second⟩) ⟨"u2", "t2", 20 * second⟩ 1).timerTarget
      = 20 * second - 5 * second :=
  (C4_renewal_timer_and_retry second (fun _ => .ok ⟨"u2", "t2", 20 * second⟩)
    none 1 1 (initConnState ⟨"u1", "t1", 10 * second⟩ 0) ⟨"u2", "t2", 20 * second⟩
    [] (.ok ⟨"u2", "t2", 20 * second⟩) .canceled).2.2.2.1 rfl rfl

/-- C5: construction can fail only with the cancellation error; with a
transport that always fails, NewClient blocks for every fuel when no
cancellation comes, and returns the cancellation error and no client once
it does; and a returned client always carries the session of a completed
successful first login. -/
theorem C5_construction_only_fails_by_cancellation :
    ∀ (opts : Options) (attempts : Nat → Except GoError LoginResponse)
      (cancelAt : Option Nat) (fuel k : Nat) (e : GoError) (cs : ClientState),
      (NewClient opts attempts cancelAt fuel = some (.error e) → e = .canceled)
      ∧ ((∀ n, ∃ er, attempts n = .error er) →
          NewClient opts attempts none fuel = none)
      ∧ ((∀ n, ∃ er, attempts n = .error er) →
          NewClient opts attempts (some k) (k + 1) = some (.error .canceled))
      ∧ (NewClient opts attempts cancelAt fuel = some (.ok cs) →
          ∃ n resp, attempts n = .ok resp
            ∧ cs.conn = initConnState resp (n + 1)
            ∧ cs.conn.token = resp.Token) := by
  intro opts attempts cancelAt fuel k e cs
  refine ⟨?_, ?_, ?_, ?_⟩
  · intro h
    simp only [NewClient] at h
    cases hL : loginUntilSuccess opts.applyDefaults.timeBetweenLoginAttemps
        attempts cancelAt fuel 0 with
    | none => rw [hL] at h; simp at h
    | some trip =>
      obtain ⟨res, j, sl⟩ := trip
      rw [hL] at h
      cases res with
      | ok r => simp at h
      | error e1 =>
        simp only [Option.some.injEq, Except.error.injEq] at h
        cases h
        exact loginUntilSuccess_error_canceled hL
  · intro hfail
    simp only [NewClient]
    rw [loginUntilSuccess_allFail_none hfail fuel 0]
  · intro hfail
    simp only [NewClient]
    rw [loginUntilSuccess_allFail_cancel k hfail (k + 1) 0 (by omega) (by omega)]
  · intro h
    simp only [NewClient] at h
    cases hL : loginUntilSuccess opts.applyDefaults.timeBetweenLoginAttemps
        attempts cancelAt fuel 0 with
    | none => rw [hL] at h; simp at h
    | some trip =>
      obtain ⟨res, j, sl⟩ := trip
      rw [hL] at h
      cases res with
      | error e1 => simp at h
      | ok resp =>
        simp only [Option.some.injEq, Except.ok.injEq] at h
        obtain ⟨n, hn1, hn2, hn3⟩ := loginUntilSuccess_ok_attempt hL
        refine ⟨n, resp, hn3, ?_, ?_⟩
        · rw [← h, hn2]
        · rw [← h, hn2]
          rfl

/-- C5 witness: with a transport that always fails and the cancellation
firing at attempt index 1, construction returns the cancellation error. -/
theorem C5_construction_only_fails_by_cancellation_witness :
    NewClient ⟨"http;//wekan", "user", "pw", second⟩
      (fun _ => .error (.msg "down")) (some 1) 2 = some (.error .canceled) :=
  (C5_construction_only_fails_by_cancellation ⟨"http;//wekan", "user", "pw", second⟩
    (fun _ => .error (.msg "down")) none 2 1 .canceled
    ⟨⟨"", "", "", 0⟩, ⟨"", 0, "", 0, false, 0⟩⟩).2.2.1
    (fun _ => ⟨.msg "down", rfl⟩)

/-- C6: an interval below one second is floored to one second, making the
whole construction behave identically to requesting exactly one second;
the sleep between consecutive attempts is the one fixed interval with no
backoff growth; and with a transport that always fails the loop never
gives up on its own (no attempt limit). -/
theorem C6_retry_interval_floor_and_fixed :
    ∀ (opts : Options) (t interval : GoDuration)
      (attempts : Nat → Except GoError LoginResponse) (cancelAt : Option Nat)
      (fuel i j : Nat) (res : Except GoError LoginResponse)
      (sl : List GoDuration),
      (t < second →
        Options.applyDefaults { opts with timeBetweenLoginAttemps := t }
          = Options.applyDefaults { opts with timeBetweenLoginAttemps := second })
      ∧ (t < second →
          NewClient { opts with timeBetweenLoginAttemps := t } attempts cancelAt fuel
            = NewClient { opts with timeBetweenLoginAttemps := second }
                attempts cancelAt fuel)
      ∧ (loginUntilSuccess interval attempts cancelAt fuel i = some (res, j, sl) →
          ∀ d ∈ sl, d = interval)
      ∧ ((∀ n, ∃ er, attempts n = .error er) →
          loginUntilSuccess interval attempts none fuel i = none) := by
  intro opts t interval attempts cancelAt fuel i j res sl
  have hdef : t < second →
      Options.applyDefaults { opts with timeBetweenLoginAttemps := t }
        = Options.applyDefaults { opts with timeBetweenLoginAttemps := second } := by
    intro ht
    simp [Options.applyDefaults, ht]
  refine ⟨hdef, ?_, fun h => loginUntilSuccess_sleeps_fixed h,
    fun hfail => loginUntilSuccess_allFail_none hfail fuel i⟩
  intro ht
  unfold NewClient
  rw [hdef ht]

/-- C6 witness: requesting a zero interval constructs the same client as
requesting one second. -/
theorem C6_retry_interval_floor_and_fixed_witness :
    NewClient ⟨"a", "u", "p", 0⟩ (fun _ => .ok ⟨"u1", "t1", 100⟩) none 1
      = NewClient ⟨"a", "u", "p", second⟩ (fun _ => .ok ⟨"u1", "t1", 100⟩) none 1 :=
  (C6_retry_interval_floor_and_fixed ⟨"a", "u", "p", 0⟩ 0 second
    (fun _ => .ok ⟨"u1", "t1", 100⟩) none 1 0 0 (.ok ⟨"u1", "t1", 100⟩) []).2.1
    (by decide)

/-- C7 counterexample: during a renewal the user id of the new login is
visible through GetCurrentUserID (it is stored under the separate mutex
inside loginUntilSuccess) while a token request still serves the token of
the previous login, whose user id was u1, not u2: the three Session fields
are not replaced as one atomic unit. -/
theorem C7_counterexample_userID_ahead_of_token :
    GetCurrentUserID (saveUserID (initConnState ⟨"u1", "t1", 10 * second⟩ 1)
        ⟨"u2", "t2", 20 * second⟩) = "u2"
    ∧ (saveUserID (initConnState ⟨"u1", "t1", 10 * second⟩ 1)
        ⟨"u2", "t2", 20 * second⟩).token = "t1"
    ∧ connStep second (fun _ => .ok ⟨"u2", "t2", 20 * second⟩) none 1
        (saveUserID (initConnState ⟨"u1", "t1", 10 * second⟩ 1)
          ⟨"u2", "t2", 20 * second⟩) .tokenRequest
      = some (saveUserID (initConnState ⟨"u1", "t1", 10 * second⟩ 1)
          ⟨"u2", "t2", 20 * second⟩, some "t1")
    ∧ connStep second (fun _ => .ok ⟨"u2", "t2", 20 * second⟩) none 1
        (initConnState ⟨"u1", "t1", 10 * second⟩ 1) .timerFires
      = some (adoptSession (saveUserID (initConnState ⟨"u1", "t1", 10 * second⟩ 1)
            ⟨"u2", "t2", 20 * second⟩) ⟨"u2", "t2", 20 * second⟩ 2, none)
    ∧ (("u2" : String) == "u1") = false :=
  ⟨rfl, rfl, rfl, rfl, rfl⟩

/-- C7 amended: the token, its expiry and the timer are replaced together
by the adoption step of the background task, but the user id is stored
separately, under its own mutex, before adoption, so a reader of
GetCurrentUserID can see the user id of a newer login than the token
being served. -/
theorem C7_amended_token_expiry_atomic_userID_separate :
    ∀ (s : ConnState) (resp : LoginResponse) (j : Nat),
      (adoptSession (saveUserID s resp) resp j).token = resp.Token
      ∧ (adoptSession (saveUserID s resp) resp j).tokenExpires = resp.TokenExpires
      ∧ (adoptSession (saveUserID s resp) resp j).timerTarget
        = resp.TokenExpires - 5 * second
      ∧ (saveUserID s resp).userID = resp.ID
      ∧ (saveUserID s resp).token = s.token
      ∧ (saveUserID s resp).tokenExpires = s.tokenExpires
      ∧ GetCurrentUserID (saveUserID s resp) = resp.ID :=
  fun _ _ _ => ⟨rfl, rfl, rfl, rfl, rfl, rfl, rfl⟩

/-- C8: all four authenticated request builders discard the error of
authenticateRequest: when obtaining the token fails, each still returns
its request with a nil error and without an Authorization header. -/
theorem C8_builders_swallow_token_errors :
    ∀ (remoteAddr endpoint data : String) (e : GoError),
      okNoAuth (newAuthenticatedGETRequest remoteAddr endpoint (.error e)) = true
      ∧ okNoAuth (newAuthenticatedPOSTRequest remoteAddr endpoint (some data)
          (.error e)) = true
      ∧ okNoAuth (newAuthenticatedPUTRequest remoteAddr endpoint (some data)
          (.error e)) = true
      ∧ okNoAuth (newAuthenticatedDELETERequest remoteAddr endpoint (.error e)) = true
      ∧ newAuthenticatedGETRequest remoteAddr endpoint (.error e)
        = .ok (newGETRequest remoteAddr endpoint) := by
  intro remoteAddr endpoint data e
  refine ⟨?_, ?_, ?_, ?_, rfl⟩ <;>
    simp [okNoAuth, newAuthenticatedGETRequest, newAuthenticatedPOSTRequest,
      newAuthenticatedPUTRequest, newAuthenticatedDELETERequest,
      authenticateRequest, newGETRequest, setHeader, hasHeader]

/-- C9: an accepted token request receives exactly one reply, the token
current at the moment of acceptance: a request accepted before a renewal
sees the old token and one accepted after sees the new one, never a mixed
value; and the write of the routine into the fresh capacity-one reply
slot always succeeds immediately. -/
theorem C9_accepted_request_gets_one_current_token :
    ∀ (interval : GoDuration) (attempts : Nat → Except GoError LoginResponse)
      (cancelAt : Option Nat) (fuel j : Nat) (s : ConnState)
      (resp : LoginResponse) (sl : List GoDuration) (v : String),
      (s.closed = false →
        connStep interval attempts cancelAt fuel s .tokenRequest
          = some (s, some s.token))
      ∧ (s.closed = false →
          loginUntilSuccess interval attempts cancelAt fuel s.attIdx
            = some (.ok resp, j, sl) →
          connRun interval attempts cancelAt fuel s [.tokenRequest, .timerFires]
            = some (adoptSession (saveUserID s resp) resp j, [s.token])
          ∧ connRun interval attempts cancelAt fuel s [.timerFires, .tokenRequest]
            = some (adoptSession (saveUserID s resp) resp j, [resp.Token]))
      ∧ slotSend newReplySlot v = some (some v) := by
  intro interval attempts cancelAt fuel j s resp sl v
  refine ⟨fun hs => by simp [connStep, hs], ?_, rfl⟩
  intro hs h
  constructor
  · simp [connRun, connStep, hs, h]
  · simp [connRun, connStep, hs, h, adoptSession, saveUserID]

/-- C9 witness: a request accepted right after a renewal is answered with
the new token. -/
theorem C9_accepted_request_gets_one_current_token_witness :
    connRun second (fun _ => .ok ⟨"u2", "t2", 20 * second⟩) none 1
      (initConnState ⟨"u1", "t1", 10 * second⟩ 0) [.timerFires, .tokenRequest]
      = some (adoptSession (saveUserID (initConnState ⟨"u1", "t1", 10 * second⟩ 0)
          ⟨"u2", "t2", 20 * second⟩) ⟨"u2", "t2", 20 * second⟩ 1, ["t2"]) :=
  ((C9_accepted_request_gets_one_current_token second
    (fun _ => .ok ⟨"u2", "t2", 20 * second⟩) none 1 1
    (initConnState ⟨"u1", "t1", 10 * second⟩ 0) ⟨"u2", "t2", 20 * second⟩ []
    "x").2.1 rfl rfl).2

/-- C10: the claim and the doc comments promise ErrNotFound when the
transport signals end of file, and the check errors.Is err io.EOF would
indeed fire on a bare io.EOF; but every error of doSimpleRequest is built
by fmt.Errorf with the percent-v verb, which keeps no error chain, so even
when the body is empty and decoding fails with io.EOF itself, GetBoard and
GetSwimlane return the flat wrapped error and never ErrNotFound. -/
theorem C10_eof_translation_dead :
    GetBoard (fun _ => some .eof) (.resp 200 (.data ""))
      = some (.msg
        "failed to parse response: failed to unmarshal response: EOF; raw response: ")
    ∧ GetSwimlane (fun _ => some .eof) (.resp 200 (.data ""))
      = some (.msg
        "failed to parse response: failed to unmarshal response: EOF; raw response: ")
    ∧ GetBoard (fun _ => none) (.doError .eof)
      = some (.msg "failed to send POST request: EOF")
    ∧ GoError.is (.msg
        "failed to parse response: failed to unmarshal response: EOF; raw response: ")
        .eof = false
    ∧ GoError.is .eof .eof = true :=
  ⟨rfl, rfl, rfl, rfl, rfl⟩

end Wego
